import Mathlib

/-!
Shallow embedding of `src/fetching_pubmed_paper/pubmed_fetcher.py`.

The values flowing through the program are the Python values produced by
`xmltodict.parse` (nested dicts, lists, strings, `None`) and by
`response.json()` (JSON objects, arrays, strings, integers, booleans,
`None`).  They are modelled by the inductive type `PyVal`; floating-point
JSON numbers never occur in the paths the program touches and are outside
the model.  Fallible Python operations (attribute access on a non-dict,
indexing, iteration over `None`, a raising `response.json()`) are modelled
in the `Except String` monad, the error string standing for the exception.
Network calls are modelled by passing the response a call would return as
an explicit argument; each fetch function additionally reports how many
network calls it performed and which console notices it printed.
-/

inductive PyVal : Type where
  | str : String → PyVal
  | int : Int → PyVal
  | bool : Bool → PyVal
  | null : PyVal
  | dict : List (String × PyVal) → PyVal
  | list : List PyVal → PyVal

mutual

/-- Structural equality on `PyVal` (Python `==` on these values). -/
def PyVal.beq : PyVal → PyVal → Bool
  | .str a, .str b => a == b
  | .int a, .int b => a == b
  | .bool a, .bool b => a == b
  | .null, .null => true
  | .dict a, .dict b => PyVal.beqPairs a b
  | .list a, .list b => PyVal.beqElems a b
  | _, _ => false

def PyVal.beqPairs : List (String × PyVal) → List (String × PyVal) → Bool
  | [], [] => true
  | (k1, v1) :: r1, (k2, v2) :: r2 => k1 == k2 && PyVal.beq v1 v2 && PyVal.beqPairs r1 r2
  | _, _ => false

def PyVal.beqElems : List PyVal → List PyVal → Bool
  | [], [] => true
  | v1 :: r1, v2 :: r2 => PyVal.beq v1 v2 && PyVal.beqElems r1 r2
  | _, _ => false

end

instance : BEq PyVal := ⟨PyVal.beq⟩

def pyTypeName : PyVal → String
  | .str _ => "str"
  | .int _ => "int"
  | .bool _ => "bool"
  | .null => "NoneType"
  | .dict _ => "dict"
  | .list _ => "list"

def isDict : PyVal → Bool
  | .dict _ => true
  | _ => false

def isList : PyVal → Bool
  | .list _ => true
  | _ => false

/-- Python truthiness (`if x:`): empty containers, the empty string, `0`,
`False` and `None` are falsy. -/
def pyTruthy : PyVal → Bool
  | .str s => !s.isEmpty
  | .int n => n != 0
  | .bool b => b
  | .null => false
  | .dict ps => !ps.isEmpty
  | .list vs => !vs.isEmpty

/-- Python `obj.get(key, default)`: a dict returns the stored value (or the
default when the key is absent); every other receiver raises
`AttributeError`. -/
def pyGet (v : PyVal) (key : String) (default : PyVal) : Except String PyVal :=
  match v with
  | .dict ps => .ok ((ps.lookup key).getD default)
  | _ => .error ("AttributeError: " ++ pyTypeName v ++ " object has no attribute get")

def isPrefixChars : List Char → List Char → Bool
  | [], _ => true
  | _ :: _, [] => false
  | a :: as, b :: bs => a == b && isPrefixChars as bs

def isInfixChars : List Char → List Char → Bool
  | needle, [] => isPrefixChars needle []
  | needle, b :: bs => isPrefixChars needle (b :: bs) || isInfixChars needle bs

/-- Python `key in obj`: key membership for a dict, substring test for a
string, element membership for a list; `TypeError` otherwise. -/
def pyContains (container : PyVal) (key : String) : Except String Bool :=
  match container with
  | .dict ps => .ok (ps.any (fun kv => kv.1 == key))
  | .str s => .ok (isInfixChars key.toList s.toList)
  | .list vs => .ok (vs.any (fun v => PyVal.beq v (.str key)))
  | _ => .error ("TypeError: argument of type " ++ pyTypeName container ++ " is not iterable")

/-- Python `obj[key]` with a string key: dict lookup (raising `KeyError`
when absent); `TypeError` on every other receiver. -/
def pyIndex (container : PyVal) (key : String) : Except String PyVal :=
  match container with
  | .dict ps =>
    match ps.lookup key with
    | some v => .ok v
    | Option.none => .error ("KeyError: " ++ key)
  | _ => .error ("TypeError: " ++ pyTypeName container ++ " object is not subscriptable")

/-- Python `for x in obj`: a list yields its elements, a dict yields its
KEYS (as strings), a string yields its characters; `TypeError` otherwise. -/
def pyIter : PyVal → Except String (List PyVal)
  | .list vs => .ok vs
  | .dict ps => .ok (ps.map (fun kv => .str kv.1))
  | .str s => .ok (s.toList.map (fun c => .str (String.singleton c)))
  | v => .error ("TypeError: " ++ pyTypeName v ++ " object is not iterable")

mutual

/-- Python `repr` (quote escaping inside strings is not modelled). -/
def pyRepr : PyVal → String
  | .str s => "\x27" ++ s ++ "\x27"
  | .int n => toString n
  | .bool b => if b then "True" else "False"
  | .null => "None"
  | .dict ps => "\x7b" ++ pyReprPairs ps ++ "\x7d"
  | .list vs => "[" ++ pyReprElems vs ++ "]"

def pyReprPairs : List (String × PyVal) → String
  | [] => ""
  | [(k, v)] => "\x27" ++ k ++ "\x27: " ++ pyRepr v
  | (k, v) :: rest => "\x27" ++ k ++ "\x27: " ++ pyRepr v ++ ", " ++ pyReprPairs rest

def pyReprElems : List PyVal → String
  | [] => ""
  | [v] => pyRepr v
  | v :: rest => pyRepr v ++ ", " ++ pyReprElems rest

end

/-- Python `str(x)`, as used by an f-string: the identity on strings, the
repr-style rendering otherwise. -/
def pyStr (v : PyVal) : String :=
  match v with
  | .str s => s
  | _ => pyRepr v

def dropLeadingWs : List Char → List Char
  | [] => []
  | c :: rest => if c.isWhitespace then dropLeadingWs rest else c :: rest

/-- Python `str.strip()`: remove whitespace from both ends. -/
def pyStrip (s : String) : String :=
  String.mk ((dropLeadingWs ((dropLeadingWs s.data).reverse)).reverse)

/-! ## `fetch_pubmed_papers` (lines 6–23)

The single `requests.get` is modelled by passing the response it would
return; `response.json()` is an `Except` since it raises on a non-JSON
body.  The result pairs the console notices printed with the returned
value. -/

structure SearchResponse where
  status_code : Nat
  json : Except String PyVal

def fetch_pubmed_papers (response : SearchResponse) : Except String (List String × PyVal) :=
  if response.status_code = 200 then
    Except.bind response.json fun data =>
    Except.bind (pyGet data "esearchresult" (.dict [])) fun esearchresult =>
    Except.bind (pyGet esearchresult "idlist" (.list [])) fun idlist =>
    .ok ([], idlist)
  else
    .ok (["Error fetching data from PubMed: " ++ toString response.status_code], .list [])

/-! ## `fetch_paper_details` (lines 25–44) -/

structure DetailResponse where
  status_code : Nat
  text : String

/-- `",".join(paper_ids)`: each element of the iterable must be a string. -/
def commaJoinLoop : List PyVal → Except String (List String)
  | [] => .ok []
  | .str s :: rest => Except.bind (commaJoinLoop rest) fun others => .ok (s :: others)
  | v :: _ => .error ("TypeError: sequence item: expected str instance, " ++ pyTypeName v ++ " found")

def pyJoinComma (v : PyVal) : Except String String :=
  Except.bind (pyIter v) fun elems =>
  Except.bind (commaJoinLoop elems) fun strs =>
  .ok (String.intercalate "," strs)

/-- Result triple: number of network calls issued, console notices printed,
and the return value (`some` XML text on success, `none` for Python
`None`). -/
def fetch_paper_details (paper_ids : PyVal) (response : DetailResponse) :
    Except String (Nat × List String × Option String) :=
  if !pyTruthy paper_ids then
    .ok (0, ["No paper IDs found."], Option.none)
  else
    Except.bind (pyJoinComma paper_ids) fun _id_param =>
    if response.status_code = 200 then
      .ok (1, [], some response.text)
    else
      .ok (1, ["Error fetching details from PubMed: " ++ toString response.status_code], Option.none)

/-! ## `parse_pubmed_xml` (lines 46–91)

`xml_data` has already passed through `xmltodict.parse`; the function
below starts from that parsed tree (`parsed_data`). -/

structure Record where
  title : PyVal
  authors : List String
  affiliations : List PyVal

/-- Lines 68–71: `f"{fore_name} {last_name}".strip()` with the two
`author.get` lookups. -/
def full_nameOf (author : PyVal) : Except String String :=
  Except.bind (pyGet author "LastName" (.str "")) fun last_name =>
  Except.bind (pyGet author "ForeName" (.str "")) fun fore_name =>
  .ok (pyStrip (pyStr fore_name ++ " " ++ pyStr last_name))

/-- Lines 67–73: the author loop, appending only truthy (non-empty)
names. -/
def authorsLoop : List PyVal → Except String (List String)
  | [] => .ok []
  | author :: rest =>
    Except.bind (full_nameOf author) fun full_name =>
    Except.bind (authorsLoop rest) fun others =>
    .ok (if full_name = "" then others else full_name :: others)

/-- Lines 80–83: the inner loop over one author's `AffiliationInfo`
entries. -/
def affEntryLoop : List PyVal → Except String (List PyVal)
  | [] => .ok []
  | aff :: rest =>
    Except.bind (pyContains aff "Affiliation") fun c =>
    if c then
      Except.bind (pyIndex aff "Affiliation") fun v =>
      Except.bind (affEntryLoop rest) fun others =>
      .ok (v :: others)
    else
      affEntryLoop rest

/-- Lines 77–83: the affiliation pass over the author list. -/
def affAuthorLoop : List PyVal → Except String (List PyVal)
  | [] => .ok []
  | author :: rest =>
    Except.bind (pyGet author "AffiliationInfo" (.list [])) fun affiliation_info =>
    Except.bind (match affiliation_info with
                 | .list affs => affEntryLoop affs
                 | _ => .ok []) fun here =>
    Except.bind (affAuthorLoop rest) fun others =>
    .ok (here ++ others)

/-- Lines 66–73: `authors = []` then the loop guarded by
`if isinstance(author_list, list)`. -/
def authorsOf (author_list : PyVal) : Except String (List String) :=
  match author_list with
  | .list entries => authorsLoop entries
  | _ => .ok []

/-- Lines 75–83: `affiliations = []` then the loop guarded by
`if isinstance(author_list, list) and author_list` (the second conjunct is
Python truthiness: the list must be non-empty). -/
def affiliationsOf (author_list : PyVal) : Except String (List PyVal) :=
  match author_list with
  | .list entries => if entries.isEmpty then .ok [] else affAuthorLoop entries
  | _ => .ok []

/-- Lines 56–89: the body of `for article in articles` building one
record. -/
def extractArticle (article : PyVal) : Except String Record :=
  Except.bind (pyGet article "MedlineCitation" (.dict [])) fun medline_citation =>
  Except.bind (pyGet medline_citation "Article" (.dict [])) fun article_info =>
  Except.bind (pyGet article_info "ArticleTitle" (.str "No Title Found")) fun title =>
  Except.bind (pyGet article_info "AuthorList" (.dict [])) fun authorListNode =>
  Except.bind (pyGet authorListNode "Author" (.list [])) fun author_list =>
  Except.bind (authorsOf author_list) fun authors =>
  Except.bind (affiliationsOf author_list) fun affiliations =>
  .ok { title := title, authors := authors, affiliations := affiliations }

def articlesLoop : List PyVal → Except String (List Record)
  | [] => .ok []
  | article :: rest =>
    Except.bind (extractArticle article) fun r =>
    Except.bind (articlesLoop rest) fun others =>
    .ok (r :: others)

/-- Lines 46–91.  Note line 53: `articles` is whatever sits under
`PubmedArticleSet → PubmedArticle` (default `[]`); the `for` loop then
iterates it with Python iteration semantics (a dict yields its keys). -/
def parse_pubmed_xml (parsed_data : PyVal) : Except String (List Record) :=
  Except.bind (pyGet parsed_data "PubmedArticleSet" (.dict [])) fun pset =>
  Except.bind (pyGet pset "PubmedArticle" (.list [])) fun articles =>
  Except.bind (pyIter articles) fun articleSeq =>
  articlesLoop articleSeq

/-! ## `__main__` (lines 96–123)

Only the part the claims touch is modelled: whether the detail-fetch
network call is reached (`if paper_ids:` on line 110 guards it), and how
many detail-fetch network calls are issued. -/

def mainDetailFetchCalls (searchResponse : SearchResponse) (detailResponse : DetailResponse) :
    Except String Nat :=
  Except.bind (fetch_pubmed_papers searchResponse) fun res =>
  if pyTruthy res.2 then
    Except.bind (fetch_paper_details res.2 detailResponse) fun out =>
    .ok out.1
  else
    .ok 0

/-! ## Helper views used by the theorem statements

These recompute intermediate values of `extractArticle` so that theorem
hypotheses can name them.  They follow the same `.get` chains as the
source. -/

/-- The `article_info` node (lines 57–58). -/
def article_infoOf (article : PyVal) : Except String PyVal :=
  Except.bind (pyGet article "MedlineCitation" (.dict [])) fun medline_citation =>
  pyGet medline_citation "Article" (.dict [])

/-- The `author_list` value (line 65):
`article_info.get("AuthorList", {}).get("Author", [])`. -/
def author_listOf (article : PyVal) : Except String PyVal :=
  Except.bind (article_infoOf article) fun article_info =>
  Except.bind (pyGet article_info "AuthorList" (.dict [])) fun node =>
  pyGet node "Author" (.list [])

/-- Display name of one dict-shaped author entry, as line 71 builds it. -/
def display_nameOf : PyVal → String
  | .dict ps =>
    pyStrip (pyStr ((ps.lookup "ForeName").getD (.str "")) ++ " "
      ++ pyStr ((ps.lookup "LastName").getD (.str "")))
  | _ => ""

/-- The affiliations one author entry contributes: every value under an
`Affiliation` key of a dict entry of its list-form `AffiliationInfo`;
nothing when `AffiliationInfo` is not a list. -/
def affiliationsOfAuthor : PyVal → List PyVal
  | .dict ps =>
    (match (ps.lookup "AffiliationInfo").getD (.list []) with
     | .list affs => affs.filterMap (fun aff =>
         match aff with
         | .dict qs => qs.lookup "Affiliation"
         | _ => Option.none)
     | _ => [])
  | _ => []

/-- Well-formedness of one author's affiliation entries: when
`AffiliationInfo` is a list, all its entries are dicts. -/
def affEntriesOK : PyVal → Bool
  | .dict ps =>
    (match (ps.lookup "AffiliationInfo").getD (.list []) with
     | .list affs => affs.all isDict
     | _ => true)
  | _ => true

def nonEmptyStr (s : String) : Bool := !(s == "")

/-! ## Lemmas about the embedding -/

@[simp] theorem pyBindOk {α β : Type} (a : α) (f : α → Except String β) :
    Except.bind (Except.ok a) f = f a := rfl

@[simp] theorem pyBindError {α β : Type} (e : String) (f : α → Except String β) :
    Except.bind (Except.error e) f = Except.error e := rfl

theorem pyGet_ok_iff {v d w : PyVal} {k : String} :
    pyGet v k d = Except.ok w ↔ ∃ ps, v = PyVal.dict ps ∧ (ps.lookup k).getD d = w := by
  cases v <;> simp [pyGet]

theorem authorsOf_nonlist {al : PyVal} (h : isList al = false) :
    authorsOf al = Except.ok [] := by
  cases al <;> simp_all [authorsOf, isList]

theorem affiliationsOf_nonlist {al : PyVal} (h : isList al = false) :
    affiliationsOf al = Except.ok [] := by
  cases al <;> simp_all [affiliationsOf, isList]

/-- Inversion of a successful per-article extraction: the intermediate
nodes it walked and the origin of each record field. -/
theorem extractArticle_ok_inv {article : PyVal} {r : Record}
    (hok : extractArticle article = Except.ok r) :
    ∃ ps, article_infoOf article = Except.ok (PyVal.dict ps) ∧
      r.title = (ps.lookup "ArticleTitle").getD (PyVal.str "No Title Found") ∧
      ∃ al, author_listOf article = Except.ok al ∧
        authorsOf al = Except.ok r.authors ∧
        affiliationsOf al = Except.ok r.affiliations := by
  simp only [extractArticle] at hok
  cases h1 : pyGet article "MedlineCitation" (.dict []) with
  | error e => rw [h1] at hok; simp at hok
  | ok medline_citation =>
  rw [h1] at hok; rw [pyBindOk] at hok
  cases h2 : pyGet medline_citation "Article" (.dict []) with
  | error e => rw [h2] at hok; simp at hok
  | ok article_info =>
  rw [h2] at hok; rw [pyBindOk] at hok
  cases h3 : pyGet article_info "ArticleTitle" (.str "No Title Found") with
  | error e => rw [h3] at hok; simp at hok
  | ok title =>
  rw [h3] at hok; rw [pyBindOk] at hok
  obtain ⟨ps, hinfo, htitle⟩ := pyGet_ok_iff.mp h3
  cases h4 : pyGet article_info "AuthorList" (.dict []) with
  | error e => rw [h4] at hok; simp at hok
  | ok authorListNode =>
  rw [h4] at hok; rw [pyBindOk] at hok
  cases h5 : pyGet authorListNode "Author" (.list []) with
  | error e => rw [h5] at hok; simp at hok
  | ok author_list =>
  rw [h5] at hok; rw [pyBindOk] at hok
  cases h6 : authorsOf author_list with
  | error e => rw [h6] at hok; simp at hok
  | ok authors =>
  rw [h6] at hok; rw [pyBindOk] at hok
  cases h7 : affiliationsOf author_list with
  | error e => rw [h7] at hok; simp at hok
  | ok affiliations =>
  rw [h7] at hok; rw [pyBindOk] at hok
  injection hok with hr
  subst hr
  refine ⟨ps, ?_, ?_, author_list, ?_, h6, h7⟩
  · simp only [article_infoOf, h1, pyBindOk, h2, hinfo]
  · exact htitle.symm
  · simp only [author_listOf, article_infoOf, h1, pyBindOk, h2, h4, h5]

theorem full_nameOf_dict (ps : List (String × PyVal)) :
    full_nameOf (PyVal.dict ps) = Except.ok (display_nameOf (PyVal.dict ps)) := rfl

/-- On a list of dict-shaped author entries, the author loop returns
exactly the non-empty display names, in order. -/
theorem authorsLoop_eq_of_dicts {la : List PyVal} (h : ∀ a ∈ la, isDict a = true) :
    authorsLoop la = Except.ok ((la.map display_nameOf).filter nonEmptyStr) := by
  induction la with
  | nil => rfl
  | cons a rest ih =>
    obtain ⟨ps, rfl⟩ : ∃ ps, a = PyVal.dict ps := by
      have := h a (List.mem_cons_self a rest)
      cases a <;> simp_all [isDict]
    have hrest := ih (fun x hx => h x (List.mem_cons_of_mem _ hx))
    simp only [authorsLoop, full_nameOf_dict, pyBindOk, hrest, List.map_cons, List.filter_cons,
      nonEmptyStr]
    by_cases he : display_nameOf (PyVal.dict ps) = "" <;> simp [he]

theorem authorsOf_mem_ne {al : PyVal} {names : List String}
    (h : authorsOf al = Except.ok names) : ∀ n ∈ names, n ≠ "" := by
  have loop : ∀ (la : List PyVal) (ns : List String),
      authorsLoop la = Except.ok ns → ∀ n ∈ ns, n ≠ "" := by
    intro la
    induction la with
    | nil => intro ns hns; injection hns with h2; subst h2; intro n hn; cases hn
    | cons a rest ih =>
      intro ns hns
      simp only [authorsLoop] at hns
      cases hname : full_nameOf a with
      | error e => rw [hname] at hns; simp at hns
      | ok full_name =>
      rw [hname] at hns; rw [pyBindOk] at hns
      cases hrest : authorsLoop rest with
      | error e => rw [hrest] at hns; simp at hns
      | ok others =>
      rw [hrest] at hns; rw [pyBindOk] at hns
      injection hns with h2
      subst h2
      intro n hn
      by_cases he : full_name = ""
      · simp only [he, if_pos rfl] at hn
        exact ih others hrest n hn
      · rw [if_neg he] at hn
        rcases List.mem_cons.mp hn with h3 | h3
        · subst h3; exact he
        · exact ih others hrest n h3
  cases al with
  | list entries => exact loop entries names h
  | _ =>
    all_goals
      simp only [authorsOf] at h
    all_goals
      injection h with h2; subst h2; intro n hn; cases hn

/-- Key membership by `any` agrees with `lookup`. -/
theorem any_key_eq_lookup_isSome (qs : List (String × PyVal)) (k : String) :
    qs.any (fun kv => kv.1 == k) = (qs.lookup k).isSome := by
  induction qs with
  | nil => rfl
  | cons p rest ih =>
    obtain ⟨k1, v1⟩ := p
    by_cases h : k1 = k
    · subst h; simp [List.lookup]
    · have h2 : (k == k1) = false := by simp [beq_iff_eq]; exact fun hh => h hh.symm
      have h3 : (k1 == k) = false := by simp [beq_iff_eq]; exact h
      simp [List.lookup, h2, h3, ih]

/-- On a list of dict-shaped entries, the inner affiliation loop collects
exactly the values stored under an `Affiliation` key, in order. -/
theorem affEntryLoop_eq_of_dicts {affs : List PyVal} (h : ∀ x ∈ affs, isDict x = true) :
    affEntryLoop affs = Except.ok (affs.filterMap (fun aff =>
      match aff with
      | PyVal.dict qs => qs.lookup "Affiliation"
      | _ => Option.none)) := by
  induction affs with
  | nil => rfl
  | cons aff rest ih =>
    obtain ⟨qs, rfl⟩ : ∃ qs, aff = PyVal.dict qs := by
      have := h aff (List.mem_cons_self aff rest)
      cases aff <;> simp_all [isDict]
    have hrest := ih (fun x hx => h x (List.mem_cons_of_mem _ hx))
    simp only [affEntryLoop, pyContains, pyBindOk, any_key_eq_lookup_isSome]
    cases hl : qs.lookup "Affiliation" with
    | none => simp [hl, hrest, List.filterMap_cons]
    | some v => simp [hl, pyIndex, hrest, List.filterMap_cons]

/-- On a list of dict-shaped authors whose affiliation entries are
well-formed, the affiliation pass pools each author's contributions in
author order. -/
theorem affAuthorLoop_eq_of_dicts {la : List PyVal}
    (h : ∀ a ∈ la, isDict a = true) (h2 : ∀ a ∈ la, affEntriesOK a = true) :
    affAuthorLoop la = Except.ok (la.flatMap affiliationsOfAuthor) := by
  induction la with
  | nil => rfl
  | cons a rest ih =>
    obtain ⟨ps, rfl⟩ : ∃ ps, a = PyVal.dict ps := by
      have := h a (List.mem_cons_self a rest)
      cases a <;> simp_all [isDict]
    have hrest := ih (fun x hx => h x (List.mem_cons_of_mem _ hx))
      (fun x hx => h2 x (List.mem_cons_of_mem _ hx))
    have hok := h2 (PyVal.dict ps) (List.mem_cons_self _ rest)
    simp only [affAuthorLoop, pyGet, pyBindOk, hrest]
    simp only [affEntriesOK] at hok
    cases hinfo : (ps.lookup "AffiliationInfo").getD (PyVal.list []) with
    | list affs =>
      rw [hinfo] at hok
      simp only [List.all_eq_true] at hok
      simp [affEntryLoop_eq_of_dicts hok, affiliationsOfAuthor, hinfo, List.flatMap_cons]
    | _ =>
      rw [hinfo] at hok
      simp [affiliationsOfAuthor, hinfo, List.flatMap_cons]

theorem articlesLoop_ok_mem {arts : List PyVal} {recs : List Record}
    (h : articlesLoop arts = Except.ok recs) :
    ∀ r ∈ recs, ∃ a, extractArticle a = Except.ok r := by
  induction arts generalizing recs with
  | nil => injection h with h2; subst h2; intro r hr; cases hr
  | cons a rest ih =>
    simp only [articlesLoop] at h
    cases h1 : extractArticle a with
    | error e => rw [h1] at h; simp at h
    | ok r0 =>
    rw [h1] at h; rw [pyBindOk] at h
    cases h2 : articlesLoop rest with
    | error e => rw [h2] at h; simp at h
    | ok others =>
    rw [h2] at h; rw [pyBindOk] at h
    injection h with h3; subst h3
    intro r hr
    rcases List.mem_cons.mp hr with h4 | h4
    · subst h4; exact ⟨a, h1⟩
    · exact ih h2 r h4

/-- Every record a successful run of the extractor emits comes from a
successful per-article extraction. -/
theorem parse_ok_mem {parsed_data : PyVal} {recs : List Record}
    (h : parse_pubmed_xml parsed_data = Except.ok recs) :
    ∀ r ∈ recs, ∃ a, extractArticle a = Except.ok r := by
  simp only [parse_pubmed_xml] at h
  cases h1 : pyGet parsed_data "PubmedArticleSet" (.dict []) with
  | error e => rw [h1] at h; simp at h
  | ok pset =>
  rw [h1] at h; rw [pyBindOk] at h
  cases h2 : pyGet pset "PubmedArticle" (.list []) with
  | error e => rw [h2] at h; simp at h
  | ok articles =>
  rw [h2] at h; rw [pyBindOk] at h
  cases h3 : pyIter articles with
  | error e => rw [h3] at h; simp at h
  | ok articleSeq =>
  rw [h3] at h; rw [pyBindOk] at h
  exact articlesLoop_ok_mem h

/-! ## Claims -/

def c1Article : PyVal :=
  PyVal.dict [("MedlineCitation", PyVal.dict [("Article", PyVal.dict
    [("ArticleTitle", PyVal.str "Study A"),
     ("AuthorList", PyVal.dict [("Author", PyVal.list
        [PyVal.dict [("LastName", PyVal.str "Doe"), ("ForeName", PyVal.str "Jane"),
                     ("AffiliationInfo",
                      PyVal.list [PyVal.dict [("Affiliation", PyVal.str "Lab X")]])]])])])])]

def c1DocList : PyVal :=
  PyVal.dict [("PubmedArticleSet", PyVal.dict [("PubmedArticle", PyVal.list [c1Article])])]

def c1DocSingle : PyVal :=
  PyVal.dict [("PubmedArticleSet", PyVal.dict [("PubmedArticle", c1Article)])]

/-- C1: the claim (and spec §4.3) says a single non-list `PubmedArticle`
node is normalized to a list of one so that exactly one Record is
produced.  The code does no such normalization: `for article in articles`
iterates the article dict's string KEYS, and `.get` on a string raises
`AttributeError`.  The very same article yields one Record when wrapped in
a list but makes extraction fail when it appears as a single node. -/
theorem c1_single_article_not_normalized :
    parse_pubmed_xml c1DocList =
      Except.ok [{ title := PyVal.str "Study A", authors := ["Jane Doe"],
                   affiliations := [PyVal.str "Lab X"] }] ∧
    parse_pubmed_xml c1DocSingle =
      Except.error "AttributeError: str object has no attribute get" :=
  ⟨rfl, rfl⟩

/-- C2: when the `author_list` value is not in list form (a single author
dict, or the default reached when `AuthorList`/`Author` is absent — note
the absent case defaults to `[]`, which IS a list, so the interesting
non-list case is the single author object), the record has no authors and
no affiliations, even if that single author object carries
`AffiliationInfo` data. -/
theorem c2_nonlist_author_list (article : PyVal) (r : Record) (al : PyVal)
    (hok : extractArticle article = Except.ok r)
    (hal : author_listOf article = Except.ok al)
    (hnl : isList al = false) :
    r.authors = [] ∧ r.affiliations = [] := by
  obtain ⟨ps, _, _, al0, hal0, hau, haf⟩ := extractArticle_ok_inv hok
  rw [hal] at hal0
  injection hal0 with he
  subst he
  rw [authorsOf_nonlist hnl] at hau
  rw [affiliationsOf_nonlist hnl] at haf
  constructor
  · injection hau with h; exact h.symm
  · injection haf with h; exact h.symm

def c2Author : PyVal :=
  PyVal.dict [("LastName", PyVal.str "Doe"), ("ForeName", PyVal.str "Jane"),
    ("AffiliationInfo", PyVal.list [PyVal.dict [("Affiliation", PyVal.str "Lab X")]])]

def c2Article : PyVal :=
  PyVal.dict [("MedlineCitation", PyVal.dict [("Article", PyVal.dict
    [("ArticleTitle", PyVal.str "Study A"),
     ("AuthorList", PyVal.dict [("Author", c2Author)])])])]

/-- Witness for C2 at a single (non-list) author object that carries
affiliation data. -/
theorem c2_witness :
    ({ title := PyVal.str "Study A", authors := [], affiliations := [] } : Record).authors = []
    ∧ ({ title := PyVal.str "Study A", authors := [], affiliations := [] } : Record).affiliations
      = [] :=
  c2_nonlist_author_list c2Article
    { title := PyVal.str "Study A", authors := [], affiliations := [] }
    c2Author rfl rfl rfl

/-- C3: when the `ArticleTitle` key is absent under
`MedlineCitation → Article`, the emitted record's title is the literal
`"No Title Found"` (the field always exists, `Record` being a structure
with a mandatory `title` field). -/
theorem c3_missing_title (article : PyVal) (ps : List (String × PyVal)) (r : Record)
    (hinfo : article_infoOf article = Except.ok (PyVal.dict ps))
    (habs : ps.lookup "ArticleTitle" = Option.none)
    (hok : extractArticle article = Except.ok r) :
    r.title = PyVal.str "No Title Found" := by
  obtain ⟨ps0, hinfo0, htitle, _⟩ := extractArticle_ok_inv hok
  rw [hinfo] at hinfo0
  injection hinfo0 with he
  injection he with he2
  subst he2
  rw [habs] at htitle
  exact htitle

def c3Article : PyVal := PyVal.dict [("MedlineCitation", PyVal.dict [("Article", PyVal.dict [])])]

/-- Witness for C3: an article with no title (and nothing else) extracts
successfully with the placeholder title. -/
theorem c3_witness :
    ({ title := PyVal.str "No Title Found", authors := [], affiliations := [] } : Record).title
      = PyVal.str "No Title Found" :=
  c3_missing_title c3Article []
    { title := PyVal.str "No Title Found", authors := [], affiliations := [] }
    rfl rfl rfl

/-- C4: on a list-form author list of dict-shaped entries, the record's
authors are exactly the display names `"<ForeName> <LastName>"` (trimmed),
with entries whose trimmed combination is empty skipped, in author-list
order. -/
theorem c4_display_names (article : PyVal) (r : Record) (la : List PyVal)
    (hok : extractArticle article = Except.ok r)
    (hal : author_listOf article = Except.ok (PyVal.list la))
    (hdict : ∀ a ∈ la, isDict a = true) :
    r.authors = (la.map display_nameOf).filter nonEmptyStr := by
  obtain ⟨ps, _, _, al0, hal0, hau, _⟩ := extractArticle_ok_inv hok
  rw [hal] at hal0
  injection hal0 with he
  subst he
  simp only [authorsOf] at hau
  rw [authorsLoop_eq_of_dicts hdict] at hau
  injection hau with h
  exact h.symm

def c4Authors : List PyVal :=
  [PyVal.dict [("LastName", PyVal.str "Doe"), ("ForeName", PyVal.str "Jane")],
   PyVal.dict [("LastName", PyVal.str ""), ("ForeName", PyVal.str "")]]

def c4Article : PyVal :=
  PyVal.dict [("MedlineCitation", PyVal.dict [("Article", PyVal.dict
    [("AuthorList", PyVal.dict [("Author", PyVal.list c4Authors)])])])]

/-- Witness for C4: a named author plus an empty-named author yield
exactly `["Jane Doe"]`. -/
theorem c4_witness :
    ({ title := PyVal.str "No Title Found", authors := ["Jane Doe"], affiliations := [] }
      : Record).authors = (c4Authors.map display_nameOf).filter nonEmptyStr :=
  c4_display_names c4Article
    { title := PyVal.str "No Title Found", authors := ["Jane Doe"], affiliations := [] }
    c4Authors rfl rfl
    (by intro a ha; simp only [c4Authors] at ha; fin_cases ha <;> rfl)

/-- C5: on a list-form author list of dict-shaped entries with dict-shaped
affiliation entries, the record's affiliations are the flat concatenation,
in author order, of each author's list-form `AffiliationInfo` values, no
de-duplication and no grouping; an author whose `AffiliationInfo` is not a
list contributes nothing. -/
theorem c5_pooled_affiliations (article : PyVal) (r : Record) (la : List PyVal)
    (hok : extractArticle article = Except.ok r)
    (hal : author_listOf article = Except.ok (PyVal.list la))
    (hdict : ∀ a ∈ la, isDict a = true)
    (haff : ∀ a ∈ la, affEntriesOK a = true) :
    r.affiliations = la.flatMap affiliationsOfAuthor := by
  obtain ⟨ps, _, _, al0, hal0, _, haf⟩ := extractArticle_ok_inv hok
  rw [hal] at hal0
  injection hal0 with he
  subst he
  simp only [affiliationsOf] at haf
  cases la with
  | nil =>
    simp only [List.isEmpty, if_pos rfl] at haf
    injection haf with h
    simp [h.symm]
  | cons a rest =>
    simp only [List.isEmpty] at haf
    rw [if_neg (by simp)] at haf
    rw [affAuthorLoop_eq_of_dicts hdict haff] at haf
    injection haf with h
    exact h.symm

def c5Authors : List PyVal :=
  [PyVal.dict [("LastName", PyVal.str "Doe"), ("ForeName", PyVal.str "Jane"),
     ("AffiliationInfo", PyVal.list
        [PyVal.dict [("Affiliation", PyVal.str "Lab X")],
         PyVal.dict [("Affiliation", PyVal.str "Lab Y")]])],
   PyVal.dict [("LastName", PyVal.str "Roe"), ("ForeName", PyVal.str "Rick"),
     ("AffiliationInfo", PyVal.dict [("Affiliation", PyVal.str "Hidden Lab")])],
   PyVal.dict [("LastName", PyVal.str "Poe"), ("ForeName", PyVal.str "Pat"),
     ("AffiliationInfo", PyVal.list [PyVal.dict [("Affiliation", PyVal.str "Lab X")]])]]

def c5Article : PyVal :=
  PyVal.dict [("MedlineCitation", PyVal.dict [("Article", PyVal.dict
    [("AuthorList", PyVal.dict [("Author", PyVal.list c5Authors)])])])]

/-- Witness for C5: pooled flat affiliations, duplicate `"Lab X"` kept, and
the middle author (non-list `AffiliationInfo`) contributing nothing. -/
theorem c5_witness :
    ({ title := PyVal.str "No Title Found",
       authors := ["Jane Doe", "Rick Roe", "Pat Poe"],
       affiliations := [PyVal.str "Lab X", PyVal.str "Lab Y", PyVal.str "Lab X"] }
      : Record).affiliations = c5Authors.flatMap affiliationsOfAuthor :=
  c5_pooled_affiliations c5Article
    { title := PyVal.str "No Title Found",
      authors := ["Jane Doe", "Rick Roe", "Pat Poe"],
      affiliations := [PyVal.str "Lab X", PyVal.str "Lab Y", PyVal.str "Lab X"] }
    c5Authors rfl rfl
    (by intro a ha; simp only [c5Authors] at ha; fin_cases ha <;> rfl)
    (by intro a ha; simp only [c5Authors] at ha; fin_cases ha <;> rfl)

/-- C6: with an empty identifier list, `fetch_paper_details` returns the
`None` sentinel after printing the "No paper IDs found." notice and issues
zero network calls; and whenever Search returns an empty identifier list
the `__main__` pipeline issues zero detail-fetch network calls (line 110
guards the whole detail branch with `if paper_ids:`). -/
theorem c6_empty_ids_short_circuit :
    (∀ response : DetailResponse,
        fetch_paper_details (PyVal.list []) response =
          Except.ok (0, ["No paper IDs found."], Option.none)) ∧
    (∀ (searchResponse : SearchResponse) (detailResponse : DetailResponse)
        (notices : List String),
        fetch_pubmed_papers searchResponse = Except.ok (notices, PyVal.list []) →
        mainDetailFetchCalls searchResponse detailResponse = Except.ok 0) := by
  constructor
  · intro response; rfl
  · intro sr dr notices h
    simp [mainDetailFetchCalls, h, pyTruthy, List.isEmpty]

/-- Witness for C6: the empty list short-circuits, and a failed search
(status 500) leads to zero detail-fetch calls. -/
theorem c6_witness :
    fetch_paper_details (PyVal.list []) ⟨200, "xml"⟩ =
      Except.ok (0, ["No paper IDs found."], Option.none) ∧
    mainDetailFetchCalls ⟨500, Except.error "boom"⟩ ⟨200, "xml"⟩ = Except.ok 0 :=
  ⟨c6_empty_ids_short_circuit.1 ⟨200, "xml"⟩,
   c6_empty_ids_short_circuit.2 ⟨500, Except.error "boom"⟩ ⟨200, "xml"⟩
     ["Error fetching data from PubMed: 500"] rfl⟩

/-- C7: on any non-200 search response, `fetch_pubmed_papers` returns the
empty identifier list together with exactly one diagnostic notice; it
neither raises (the result is `Except.ok`) nor returns anything but the
empty list. -/
theorem c7_search_error_empty {response : SearchResponse}
    (h : response.status_code ≠ 200) :
    fetch_pubmed_papers response =
      Except.ok (["Error fetching data from PubMed: " ++ toString response.status_code],
        PyVal.list []) := by
  simp only [fetch_pubmed_papers, if_neg h]

/-- Witness for C7 at status 404 with a body that would raise if read. -/
theorem c7_witness :
    fetch_pubmed_papers ⟨404, Except.error "no body"⟩ =
      Except.ok (["Error fetching data from PubMed: 404"], PyVal.list []) :=
  c7_search_error_empty (by decide)

/-- C8: the extractor is deterministic — two runs on the same parsed
document produce the same result (the embedding of `parse_pubmed_xml` is a
pure function of the document). -/
theorem c8_extractor_deterministic (parsed_data : PyVal)
    (out1 out2 : Except String (List Record))
    (h1 : parse_pubmed_xml parsed_data = out1)
    (h2 : parse_pubmed_xml parsed_data = out2) :
    out1 = out2 := h1.symm.trans h2

def c8Doc : PyVal :=
  PyVal.dict [("PubmedArticleSet", PyVal.dict [("PubmedArticle", PyVal.list
    [PyVal.dict [("MedlineCitation", PyVal.dict [("Article", PyVal.dict
       [("ArticleTitle", PyVal.str "Study A")])])]])])]

/-- Witness for C8 on a concrete one-article document. -/
theorem c8_witness :
    (Except.ok [{ title := PyVal.str "Study A", authors := [], affiliations := [] }]
      : Except String (List Record)) =
    Except.ok [{ title := PyVal.str "Study A", authors := [], affiliations := [] }] :=
  c8_extractor_deterministic c8Doc _ _ rfl rfl

/-- C9: every author name in every record of a successful extraction is a
non-empty string (the `if full_name:` guard on line 72); `title`,
`authors` and `affiliations` are the record's only fields and the latter
two are lists by the very type of `Record`. -/
theorem c9_authors_nonempty (parsed_data : PyVal) (recs : List Record)
    (h : parse_pubmed_xml parsed_data = Except.ok recs) :
    ∀ r ∈ recs, ∀ name ∈ r.authors, name ≠ "" := by
  intro r hr
  obtain ⟨a, ha⟩ := parse_ok_mem h r hr
  obtain ⟨ps, _, _, al, _, hau, _⟩ := extractArticle_ok_inv ha
  exact authorsOf_mem_ne hau

def c9Doc : PyVal :=
  PyVal.dict [("PubmedArticleSet", PyVal.dict [("PubmedArticle", PyVal.list
    [PyVal.dict [("MedlineCitation", PyVal.dict [("Article", PyVal.dict
       [("ArticleTitle", PyVal.str "Study A"),
        ("AuthorList", PyVal.dict [("Author", PyVal.list
           [PyVal.dict [("LastName", PyVal.str "Doe"),
                        ("ForeName", PyVal.str "Jane")]])])])])]])])]

def c9Rec : Record :=
  { title := PyVal.str "Study A", authors := ["Jane Doe"], affiliations := [] }

/-- Witness for C9 on a concrete document: the one name appended is
non-empty. -/
theorem c9_witness : ("Jane Doe" : String) ≠ "" :=
  c9_authors_nonempty c9Doc [c9Rec] rfl
    c9Rec (List.mem_singleton.mpr rfl) "Jane Doe" (List.mem_singleton.mpr rfl)

def c10GenuineEmpty : SearchResponse :=
  ⟨200, Except.ok (PyVal.dict [("esearchresult", PyVal.dict [("idlist", PyVal.list [])])])⟩

/-- C10: a 200 search response whose JSON object has no `esearchresult`
key, or whose `esearchresult` object has no `idlist` key, yields the empty
identifier list with no notice — the same output as a genuinely empty
result. -/
theorem c10_missing_keys_empty (response : SearchResponse) (data : List (String × PyVal))
    (hstatus : response.status_code = 200)
    (hjson : response.json = Except.ok (PyVal.dict data))
    (hmiss : data.lookup "esearchresult" = Option.none ∨
      ∃ es, data.lookup "esearchresult" = some (PyVal.dict es) ∧
        es.lookup "idlist" = Option.none) :
    fetch_pubmed_papers response = Except.ok ([], PyVal.list []) ∧
    fetch_pubmed_papers response = fetch_pubmed_papers c10GenuineEmpty := by
  have hmain : fetch_pubmed_papers response = Except.ok ([], PyVal.list []) := by
    simp only [fetch_pubmed_papers, if_pos hstatus, hjson, pyBindOk, pyGet]
    rcases hmiss with h | ⟨es, h, h2⟩
    · simp [h]
    · simp [h, h2]
  exact ⟨hmain, hmain.trans rfl⟩

/-- Witness for C10: a 200 response whose body has no `esearchresult`
key. -/
theorem c10_witness :
    fetch_pubmed_papers ⟨200, Except.ok (PyVal.dict [("header", PyVal.str "x")])⟩ =
      Except.ok ([], PyVal.list []) :=
  (c10_missing_keys_empty ⟨200, Except.ok (PyVal.dict [("header", PyVal.str "x")])⟩
    [("header", PyVal.str "x")] rfl rfl (Or.inl rfl)).1
